import Mathlib

/-!
Shallow embedding of the CarMatch matcher (src/server.js).

JavaScript numbers are modelled as rationals (ℚ): every arithmetic
operation the matcher performs (comparison, subtraction, addition,
multiplication by integer constants) is exact on the values involved.
Absent request fields are modelled as `none`; the JS coercions
`Number(x) || default` and `String(x || "").toLowerCase()` are embedded
explicitly.  JS `undefined` flowing out of an out-of-range array read is
modelled by `Option`.
-/

namespace CarMatch

/-- A catalog record (one entry of the `CARS` array in server.js). -/
structure Car where
  model : String
  minSeats : ℚ
  types : List String
  priceBands : List ℚ
  yearsByBand : List ℤ
deriving DecidableEq

def camry : Car := { model := "Toyota Camry", minSeats := 5, types := ["comfort", "sedan", "economy"], priceBands := [12000, 18000, 25000, 35000], yearsByBand := [2015, 2018, 2021, 2024] }
def accord : Car := { model := "Honda Accord", minSeats := 5, types := ["comfort", "sedan", "economy"], priceBands := [12000, 18000, 26000, 36000], yearsByBand := [2015, 2018, 2021, 2024] }
def telluride : Car := { model := "Kia Telluride", minSeats := 7, types := ["comfort", "suv", "family"], priceBands := [26000, 33000, 42000, 55000], yearsByBand := [2020, 2021, 2022, 2024] }
def odyssey : Car := { model := "Honda Odyssey", minSeats := 7, types := ["minivan", "family", "comfort"], priceBands := [16000, 23000, 32000, 45000], yearsByBand := [2016, 2018, 2021, 2024] }
def sClass : Car := { model := "Mercedes-Benz S-Class", minSeats := 5, types := ["luxury", "sedan"], priceBands := [28000, 40000, 65000, 110000], yearsByBand := [2014, 2017, 2020, 2023] }
def bmw7 : Car := { model := "BMW 7 Series", minSeats := 5, types := ["luxury", "sedan"], priceBands := [22000, 35000, 55000, 100000], yearsByBand := [2014, 2017, 2020, 2023] }
def lexusLS : Car := { model := "Lexus LS", minSeats := 5, types := ["luxury", "sedan", "comfort"], priceBands := [20000, 30000, 45000, 80000], yearsByBand := [2013, 2016, 2019, 2023] }
def escalade : Car := { model := "Cadillac Escalade", minSeats := 7, types := ["luxury", "suv"], priceBands := [30000, 45000, 70000, 110000], yearsByBand := [2015, 2018, 2021, 2024] }
def modelS : Car := { model := "Tesla Model S", minSeats := 5, types := ["luxury", "electric", "sedan"], priceBands := [26000, 38000, 55000, 90000], yearsByBand := [2014, 2017, 2020, 2023] }
def model3 : Car := { model := "Tesla Model 3", minSeats := 5, types := ["electric", "comfort", "sedan"], priceBands := [18000, 26000, 35000, 55000], yearsByBand := [2019, 2020, 2021, 2024] }
def rav4 : Car := { model := "Toyota RAV4", minSeats := 5, types := ["suv", "comfort", "economy"], priceBands := [12000, 17000, 26000, 38000], yearsByBand := [2015, 2017, 2020, 2023] }
def miata : Car := { model := "Mazda MX-5 Miata", minSeats := 2, types := ["sport", "roadster"], priceBands := [12000, 18000, 26000, 36000], yearsByBand := [2014, 2016, 2019, 2023] }
def porsche911 : Car := { model := "Porsche 911", minSeats := 4, types := ["sport", "luxury"], priceBands := [45000, 70000, 110000, 180000], yearsByBand := [2009, 2014, 2017, 2022] }
def corvette : Car := { model := "Chevrolet Corvette", minSeats := 2, types := ["sport"], priceBands := [35000, 50000, 70000, 120000], yearsByBand := [2014, 2017, 2020, 2023] }
def bmwM3 : Car := { model := "BMW M3", minSeats := 5, types := ["sport", "sedan"], priceBands := [30000, 45000, 65000, 90000], yearsByBand := [2015, 2018, 2021, 2023] }
def mustang : Car := { model := "Ford Mustang", minSeats := 4, types := ["sport", "coupe"], priceBands := [15000, 22000, 32000, 50000], yearsByBand := [2015, 2017, 2020, 2023] }

/-- The static catalog `CARS` of server.js, in source order. -/
def CARS : List Car :=
  [camry, accord, telluride, odyssey, sClass, bmw7, lexusLS, escalade,
   modelS, model3, rav4, miata, porsche911, corvette, bmwM3, mustang]

/-- Auxiliary loop of `pickYearForBudget`: the JS `for` loop runs the index
`i` from `priceBands.length - 1` down to `0`; the argument `k` is the number
of indices still to be checked, so the next index inspected is `k - 1`.
An out-of-range read `priceBands[i]` yields `undefined` in JS and
`budget >= undefined` is false, which `List.get?` models as `none`. -/
def pickYearGo (priceBands : List ℚ) (yearsByBand : List ℤ) (budget : ℚ) : ℕ → Option ℤ
  | 0 => yearsByBand.get? 0
  | k + 1 =>
    match priceBands.get? k with
    | some p => if p ≤ budget then yearsByBand.get? k else pickYearGo priceBands yearsByBand budget k
    | none => pickYearGo priceBands yearsByBand budget k

/-- Function `pickYearForBudget` of server.js: scan bands from the top; return the
year of the first (= highest) band whose price is ≤ budget, else the year
of the lowest band. -/
def pickYearForBudget (priceBands : List ℚ) (yearsByBand : List ℤ) (budget : ℚ) : Option ℤ :=
  pickYearGo priceBands yearsByBand budget priceBands.length

/-- Function `affordabilityScore` of server.js: `minBand = priceBands[0]`,
`maxBand = priceBands[priceBands.length - 1]`; 0 inside the band range,
otherwise the distance to the violated end.  The function is only ever
applied to the non-empty catalog bands, where `headD`/`getLastD` agree
with the JS array reads. -/
def affordabilityScore (priceBands : List ℚ) (budget : ℚ) : ℚ :=
  let minBand := priceBands.headD 0
  let maxBand := priceBands.getLastD 0
  if minBand ≤ budget ∧ budget ≤ maxBand then 0
  else if budget < minBand then minBand - budget
  else budget - maxBand

/-- Characters `encodeURIComponent` leaves unescaped: ASCII alphanumerics
and `- _ . ! ~ * ' ( )` (39 is the code of the apostrophe). -/
def isUnreservedChar (ch : Char) : Bool :=
  ch.isAlphanum || "-_.!~*()".contains ch || ch.toNat = 39

/-- UTF-8 bytes of a Unicode code point. -/
def utf8Bytes (n : ℕ) : List ℕ :=
  if n < 0x80 then [n]
  else if n < 0x800 then [0xC0 + n / 64, 0x80 + n % 64]
  else if n < 0x10000 then [0xE0 + n / 4096, 0x80 + n / 64 % 64, 0x80 + n % 64]
  else [0xF0 + n / 262144, 0x80 + n / 4096 % 64, 0x80 + n / 64 % 64, 0x80 + n % 64]

def hexDigit (n : ℕ) : Char := "0123456789ABCDEF".toList.getD n 'X'

def percentByte (b : ℕ) : String :=
  "%" ++ String.singleton (hexDigit (b / 16)) ++ String.singleton (hexDigit (b % 16))

/-- JS `encodeURIComponent`. -/
def encodeURIComponent (s : String) : String :=
  String.join (s.data.map fun ch =>
    if isUnreservedChar ch then String.singleton ch
    else String.join ((utf8Bytes ch.toNat).map percentByte))

/-- The three listing links built by `buildSearchLinks`. -/
structure Links where
  google : String
  autoscout : String
  cars : String
deriving DecidableEq

/-- JS string interpolation of the year value; an `undefined` year prints
as the string "undefined". -/
def yearText (year : Option ℤ) : String :=
  match year with
  | some y => toString y
  | none => "undefined"

/-- Function `buildSearchLinks` of server.js. -/
def buildSearchLinks (year : Option ℤ) (model : String) : Links :=
  let q := encodeURIComponent (yearText year ++ " " ++ model)
  { google := "https://www.google.com/search?q=" ++ q ++ "+for+sale"
    autoscout := "https://www.autoscout24.com/lst?sort=standard&desc=0&ustate=N%2CU&atype=C&powertype=kw&fregto="
      ++ yearText year ++ "&fregfrom=" ++ yearText year ++ "&q=" ++ encodeURIComponent model
    cars := "https://www.cars.com/shopping/results/?q=" ++ q }

/-- One entry of the `results` array of the `/search` response. -/
structure MatchResult where
  model : String
  year : Option ℤ
  seats : ℚ
  typeMatches : List String
  links : Links
  score : ℚ
deriving DecidableEq

/-- Coercion `Number(seats) || 4`: absent (or non-numeric, hence NaN) and `0` both
fall back to the default. -/
def coerceSeats (seats : Option ℚ) : ℚ :=
  match seats with
  | none => 4
  | some q => if q = 0 then 4 else q

/-- Coercion `Number(budget) || 20000`. -/
def coerceBudget (budget : Option ℚ) : ℚ :=
  match budget with
  | none => 20000
  | some q => if q = 0 then 20000 else q

/-- Coercion `String(type || "").toLowerCase()`. -/
def coerceType (type : Option String) : String :=
  (type.getD "").toLower

/-- The primary-pass seat filter, literally the three-way disjunction of
server.js line 101: `c.minSeats >= wantSeats || c.minSeats === wantSeats
|| c.minSeats > wantSeats - 1`. -/
def seatFilter3 (c : Car) (wantSeats : ℚ) : Bool :=
  wantSeats ≤ c.minSeats || c.minSeats == wantSeats || wantSeats - 1 < c.minSeats

/-- The type filter: `!wantType || c.types.includes(wantType)`. -/
def typeFilter (c : Car) (wantType : String) : Bool :=
  wantType.isEmpty || c.types.contains wantType

/-- The `.map` body of the primary pass (server.js lines 103-115). -/
def toResult (c : Car) (wantSeats wantBudget : ℚ) : MatchResult :=
  let year := pickYearForBudget c.priceBands c.yearsByBand wantBudget
  let score := affordabilityScore c.priceBands wantBudget + max 0 (wantSeats - c.minSeats) * 5000
  let links := buildSearchLinks year c.model
  { model := c.model, year := year, seats := c.minSeats, typeMatches := c.types,
    links := links, score := score }

/-- The `.map` body of the relaxed pass (server.js lines 123-128): same
score plus the fixed 10000 penalty. -/
def toResultRelaxed (c : Car) (wantSeats wantBudget : ℚ) : MatchResult :=
  let year := pickYearForBudget c.priceBands c.yearsByBand wantBudget
  let score := affordabilityScore c.priceBands wantBudget + max 0 (wantSeats - c.minSeats) * 5000 + 10000
  let links := buildSearchLinks year c.model
  { model := c.model, year := year, seats := c.minSeats, typeMatches := c.types,
    links := links, score := score }

/-- The comparison the JS comparator `(a, b) => a.score - b.score` induces;
JS `Array.prototype.sort` is stable, as is `List.insertionSort`. -/
def scoreLE (a b : MatchResult) : Prop := a.score ≤ b.score

instance : DecidableRel scoreLE := fun a b => inferInstanceAs (Decidable (a.score ≤ b.score))

instance : IsTotal MatchResult scoreLE := ⟨fun a b => le_total a.score b.score⟩

instance : IsTrans MatchResult scoreLE := ⟨fun _ _ _ h h2 => le_trans h h2⟩

/-- The primary pass of `POST /search` (server.js lines 100-117). -/
def primaryPass (wantSeats wantBudget : ℚ) (wantType : String) : List MatchResult :=
  ((((CARS.filter fun c => seatFilter3 c wantSeats).filter
      fun c => typeFilter c wantType).map
      fun c => toResult c wantSeats wantBudget).insertionSort scoreLE).take 5

/-- The relaxed pass (server.js lines 121-130): only the single-condition
seat filter `c.minSeats >= wantSeats`, penalised scores. -/
def relaxedPass (wantSeats wantBudget : ℚ) : List MatchResult :=
  (((CARS.filter fun c => decide (wantSeats ≤ c.minSeats)).map
      fun c => toResultRelaxed c wantSeats wantBudget).insertionSort scoreLE).take 5

/-- The `POST /search` handler: coerce the request fields, run the primary
pass, and fall back to the relaxed pass when it is empty.  The second
component is the `relaxed` flag of the response. -/
def search (seats budget : Option ℚ) (type : Option String) : List MatchResult × Bool :=
  let wantSeats := coerceSeats seats
  let wantBudget := coerceBudget budget
  let wantType := coerceType type
  let primary := primaryPass wantSeats wantBudget wantType
  if primary = [] then (relaxedPass wantSeats wantBudget, true) else (primary, false)

/-! ### Helper lemmas -/

theorem toResult_model (c : Car) (ws wb : ℚ) : (toResult c ws wb).model = c.model := rfl

theorem toResult_seats (c : Car) (ws wb : ℚ) : (toResult c ws wb).seats = c.minSeats := rfl

theorem toResult_typeMatches (c : Car) (ws wb : ℚ) :
    (toResult c ws wb).typeMatches = c.types := rfl

theorem toResult_score (c : Car) (ws wb : ℚ) :
    (toResult c ws wb).score
      = affordabilityScore c.priceBands wb + max 0 (ws - c.minSeats) * 5000 := rfl

theorem toResultRelaxed_eq (c : Car) (ws wb : ℚ) :
    toResultRelaxed c ws wb
      = { toResult c ws wb with score := (toResult c ws wb).score + 10000 } := rfl

theorem toResultRelaxed_score (c : Car) (ws wb : ℚ) :
    (toResultRelaxed c ws wb).score = (toResult c ws wb).score + 10000 := rfl

theorem toLower_data (s : String) : s.toLower = ⟨s.data.map Char.toLower⟩ :=
  String.map_eq Char.toLower s

theorem coerceType_some (s : String) : coerceType (some s) = ⟨s.data.map Char.toLower⟩ :=
  toLower_data s

theorem coerceSeats_intCast (n : ℤ) (hn : n ≠ 0) : coerceSeats (some (n : ℚ)) = (n : ℚ) := by
  have : ((n : ℚ) = 0) = False := by
    simp only [Int.cast_eq_zero, eq_iff_iff, iff_false]
    exact hn
  simp [coerceSeats, this]

theorem sorted_take_five (l : List MatchResult) :
    ((l.insertionSort scoreLE).take 5).Sorted scoreLE
      ∧ ((l.insertionSort scoreLE).take 5).length ≤ 5 := by
  constructor
  · exact List.Pairwise.sublist (List.take_sublist 5 _) (List.sorted_insertionSort scoreLE l)
  · rw [List.length_take]
    exact min_le_left _ _

theorem insertionSort_eq_nil_iff (l : List MatchResult) :
    l.insertionSort scoreLE = [] ↔ l = [] := by
  constructor
  · intro h
    have hperm := List.perm_insertionSort scoreLE l
    rw [h] at hperm
    exact hperm.symm.eq_nil
  · intro h
    rw [h]
    rfl

theorem primaryPass_eq_nil_iff (ws wb : ℚ) (wt : String) :
    primaryPass ws wb wt = []
      ↔ (CARS.filter fun c => seatFilter3 c ws).filter (fun c => typeFilter c wt) = [] := by
  unfold primaryPass
  rw [List.take_eq_nil_iff, insertionSort_eq_nil_iff, List.map_eq_nil_iff]
  simp

theorem search_eq_primary (s b : Option ℚ) (t : Option String)
    (h : primaryPass (coerceSeats s) (coerceBudget b) (coerceType t) ≠ []) :
    search s b t = (primaryPass (coerceSeats s) (coerceBudget b) (coerceType t), false) := by
  simp [search, h]

theorem search_eq_relaxed (s b : Option ℚ) (t : Option String)
    (h : primaryPass (coerceSeats s) (coerceBudget b) (coerceType t) = []) :
    search s b t = (relaxedPass (coerceSeats s) (coerceBudget b), true) := by
  simp [search, h]

theorem mem_primaryPass {r : MatchResult} {ws wb : ℚ} {wt : String}
    (hr : r ∈ primaryPass ws wb wt) :
    ∃ c, c ∈ CARS ∧ seatFilter3 c ws = true ∧ typeFilter c wt = true ∧ r = toResult c ws wb := by
  unfold primaryPass at hr
  have hmem := List.mem_of_mem_take hr
  rw [List.mem_insertionSort] at hmem
  obtain ⟨c, hc, rfl⟩ := List.mem_map.1 hmem
  rw [List.mem_filter] at hc
  obtain ⟨hc1, ht⟩ := hc
  rw [List.mem_filter] at hc1
  exact ⟨c, hc1.1, hc1.2, ht, rfl⟩

theorem mem_relaxedPass {r : MatchResult} {ws wb : ℚ}
    (hr : r ∈ relaxedPass ws wb) :
    ∃ c, c ∈ CARS ∧ ws ≤ c.minSeats ∧ r = toResultRelaxed c ws wb := by
  unfold relaxedPass at hr
  have hmem := List.mem_of_mem_take hr
  rw [List.mem_insertionSort] at hmem
  obtain ⟨c, hc, rfl⟩ := List.mem_map.1 hmem
  rw [List.mem_filter] at hc
  exact ⟨c, hc.1, of_decide_eq_true hc.2, rfl⟩

theorem CARS_minSeats_den : ∀ c ∈ CARS, c.minSeats.den = 1 := by decide

theorem minSeats_intCast {c : Car} (hc : c ∈ CARS) : ((c.minSeats.num : ℚ)) = c.minSeats := by
  have h := CARS_minSeats_den c hc
  conv_rhs => rw [← Rat.num_div_den c.minSeats]
  rw [h]
  simp

theorem seatFilter3_eq_ge_int {c : Car} (hc : c ∈ CARS) (n : ℤ) :
    seatFilter3 c (n : ℚ) = true ↔ (n : ℚ) ≤ c.minSeats := by
  unfold seatFilter3
  simp only [Bool.or_eq_true, decide_eq_true_eq, beq_iff_eq]
  constructor
  · rintro ((h | h) | h)
    · exact h
    · exact le_of_eq h.symm
    · rw [← minSeats_intCast hc] at h ⊢
      have hz : (n : ℤ) - 1 < c.minSeats.num := by exact_mod_cast h
      have : (n : ℤ) ≤ c.minSeats.num := by omega
      exact_mod_cast this
  · intro h
    exact Or.inl (Or.inl h)

/-- Characterisation of the scan loop: checking the indices `k-1, …, 0`,
it returns the year of the largest index below `k` whose band is within
budget, or the year of index 0 when none is. -/
theorem pickYearGo_spec (pb : List ℚ) (yb : List ℤ) (budget : ℚ) :
    ∀ k : ℕ,
      (∃ i, i < k ∧ (∃ p, pb[i]? = some p ∧ p ≤ budget)
          ∧ pickYearGo pb yb budget k = yb[i]?
          ∧ ∀ j p, i < j → j < k → pb[j]? = some p → budget < p)
      ∨ ((∀ j p, j < k → pb[j]? = some p → budget < p)
          ∧ pickYearGo pb yb budget k = yb[0]?) := by
  intro k
  induction k with
  | zero =>
    right
    refine ⟨fun j p hj => absurd hj (Nat.not_lt_zero j), ?_⟩
    show yb.get? 0 = yb[0]?
    rw [List.get?_eq_getElem?]
  | succ k ih =>
    rcases hk : pb[k]? with _ | p
    · have hstep : pickYearGo pb yb budget (k + 1) = pickYearGo pb yb budget k := by
        simp [pickYearGo, hk]
      rcases ih with ⟨i, hik, hp, heq, hmax⟩ | ⟨hall, heq⟩
      · left
        refine ⟨i, Nat.lt_succ_of_lt hik, hp, hstep.trans heq, ?_⟩
        intro j p hij hjk hj
        rcases Nat.lt_succ_iff_lt_or_eq.1 hjk with h | h
        · exact hmax j p hij h hj
        · rw [h, hk] at hj
          exact absurd hj (by simp)
      · right
        refine ⟨?_, hstep.trans heq⟩
        intro j p hjk hj
        rcases Nat.lt_succ_iff_lt_or_eq.1 hjk with h | h
        · exact hall j p h hj
        · rw [h, hk] at hj
          exact absurd hj (by simp)
    · by_cases hle : p ≤ budget
      · left
        refine ⟨k, Nat.lt_succ_self k, ⟨p, hk, hle⟩, by simp [pickYearGo, hk, hle], ?_⟩
        intro j q hkj hjk _
        omega
      · have hstep : pickYearGo pb yb budget (k + 1) = pickYearGo pb yb budget k := by
          simp [pickYearGo, hk, hle]
        have hbp : budget < p := lt_of_not_le hle
        rcases ih with ⟨i, hik, hp, heq, hmax⟩ | ⟨hall, heq⟩
        · left
          refine ⟨i, Nat.lt_succ_of_lt hik, hp, hstep.trans heq, ?_⟩
          intro j q hij hjk hj
          rcases Nat.lt_succ_iff_lt_or_eq.1 hjk with h | h
          · exact hmax j q hij h hj
          · rw [h, hk] at hj
            cases hj
            exact hbp
        · right
          refine ⟨?_, hstep.trans heq⟩
          intro j q hjk hj
          rcases Nat.lt_succ_iff_lt_or_eq.1 hjk with h | h
          · exact hall j q h hj
          · rw [h, hk] at hj
            cases hj
            exact hbp

/-- In a `(· ≤ ·)`-sorted list every element is bounded by `getLastD`. -/
theorem sorted_le_getLastD {l : List ℚ} (hs : l.Sorted (· ≤ ·)) :
    ∀ x ∈ l, x ≤ l.getLastD 0 := by
  induction l with
  | nil => intro x hx; cases hx
  | cons a t ih =>
    intro x hx
    rcases List.mem_cons.1 hx with rfl | hx
    · rcases t with _ | ⟨b, t2⟩
      · simp
      · have hs2 := hs.of_cons
        calc x ≤ b := List.rel_of_sorted_cons hs b (by simp)
          _ ≤ (b :: t2).getLastD 0 := ih hs2 b (by simp)
          _ = (x :: b :: t2).getLastD 0 := by simp [List.getLastD_cons]
    · rcases t with _ | ⟨b, t2⟩
      · cases hx
      · have hs2 := hs.of_cons
        calc x ≤ (b :: t2).getLastD 0 := ih hs2 x hx
          _ = (a :: b :: t2).getLastD 0 := by simp [List.getLastD_cons]

/-- In a `(· ≤ ·)`-sorted non-empty list the head is a lower bound. -/
theorem sorted_headD_le {l : List ℚ} (hs : l.Sorted (· ≤ ·)) :
    ∀ x ∈ l, l.headD 0 ≤ x := by
  induction l with
  | nil => intro x hx; cases hx
  | cons a t _ =>
    intro x hx
    rcases List.mem_cons.1 hx with rfl | hx
    · simp
    · simpa using List.rel_of_sorted_cons hs x hx

theorem headD_mem_of_ne_nil {l : List ℚ} (h : l ≠ []) : l.headD 0 ∈ l := by
  cases l with
  | nil => exact absurd rfl h
  | cons a t => simp

theorem getLastD_mem_of_ne_nil {l : List ℚ} (h : l ≠ []) : l.getLastD 0 ∈ l := by
  induction l with
  | nil => exact absurd rfl h
  | cons a t ih =>
    cases t with
    | nil => simp
    | cons b t2 =>
      rw [List.getLastD_cons]
      have : (b :: t2).getLastD a ∈ b :: t2 := by
        rw [List.getLastD_cons] at ih ⊢
        exact ih (by simp)
      exact List.mem_cons_of_mem a this

/-! ### Claims -/

/-- C9: every record of the static catalog `CARS` has a strictly ascending
`priceBands` of length 4 and a `yearsByBand` of the same length. -/
theorem CARS_bands_strictly_ascending_and_parallel :
    ∀ c ∈ CARS, c.priceBands.Sorted (· < ·) ∧ c.priceBands.length = 4
      ∧ c.yearsByBand.length = c.priceBands.length := by decide

theorem CARS_bands_strictly_ascending_and_parallel_witness :
    camry ∈ CARS ∧ (camry.priceBands.Sorted (· < ·) ∧ camry.priceBands.length = 4
      ∧ camry.yearsByBand.length = camry.priceBands.length) :=
  ⟨by decide, CARS_bands_strictly_ascending_and_parallel camry (by decide)⟩

/-- C1 (counterexample): the three-condition seat filter is NOT equivalent
to `minSeats ≥ seats` for every coercible seats value: at the coercible
seats value 9/2 (= 4.5) the Porsche 911 record (minSeats 4) passes the
filter although its minSeats is not ≥ 9/2. -/
theorem seatFilter_three_way_breaks_at_fractional_seats :
    porsche911 ∈ CARS ∧ coerceSeats (some (9 / 2)) = 9 / 2
      ∧ seatFilter3 porsche911 (9 / 2) = true
      ∧ ¬ ((9 / 2 : ℚ) ≤ porsche911.minSeats) := by
  refine ⟨by decide, by norm_num [coerceSeats], ?_, by norm_num [porsche911]⟩
  simp only [seatFilter3, porsche911, Bool.or_eq_true, decide_eq_true_eq, beq_iff_eq]
  norm_num

/-- C1 (amended): for every catalog record and every INTEGER seats value,
the three-condition seat filter of the primary pass passes the record if
and only if its minSeats is ≥ seats.  (At fractional coerced seats values
the equivalence fails, see the counterexample.) -/
theorem seatFilter_three_way_collapses_for_integer_seats
    (c : Car) (hc : c ∈ CARS) (n : ℤ) :
    seatFilter3 c (n : ℚ) = true ↔ (n : ℚ) ≤ c.minSeats :=
  seatFilter3_eq_ge_int hc n

theorem seatFilter_three_way_collapses_for_integer_seats_witness :
    camry ∈ CARS ∧ (seatFilter3 camry ((5 : ℤ) : ℚ) = true ↔ ((5 : ℤ) : ℚ) ≤ camry.minSeats) :=
  ⟨by decide, seatFilter_three_way_collapses_for_integer_seats camry (by decide) 5⟩

/-- C2: `pickYearForBudget` returns the year of the largest band index
within budget, the year of the lowest band when the budget is below every
band, and (on parallel non-empty lists such as the catalog rows) a year
that is an element of `yearsByBand`.  It is a total function by
construction. -/
theorem pickYearForBudget_picks_highest_affordable_band
    (pb : List ℚ) (yb : List ℤ) (budget : ℚ) (hlen : yb.length = pb.length) :
    ((∃ i, i < pb.length ∧ (∃ p, pb[i]? = some p ∧ p ≤ budget)
        ∧ pickYearForBudget pb yb budget = yb[i]?
        ∧ ∀ (j : ℕ) (p : ℚ), i < j → pb[j]? = some p → budget < p)
      ∨ ((∀ (j : ℕ) (p : ℚ), pb[j]? = some p → budget < p)
          ∧ pickYearForBudget pb yb budget = yb[0]?))
    ∧ (yb ≠ [] → ∃ y, pickYearForBudget pb yb budget = some y ∧ y ∈ yb) := by
  have h := pickYearGo_spec pb yb budget pb.length
  constructor
  · rcases h with ⟨i, hi, hp, heq, hmax⟩ | ⟨hall, heq⟩
    · left
      refine ⟨i, hi, hp, heq, ?_⟩
      intro j p hij hj
      by_cases hjlen : j < pb.length
      · exact hmax j p hij hjlen hj
      · rw [List.getElem?_eq_none (le_of_not_lt hjlen)] at hj
        exact absurd hj (by simp)
    · right
      refine ⟨?_, heq⟩
      intro j p hj
      by_cases hjlen : j < pb.length
      · exact hall j p hjlen hj
      · rw [List.getElem?_eq_none (le_of_not_lt hjlen)] at hj
        exact absurd hj (by simp)
  · intro hne
    rcases h with ⟨i, hi, _, heq, _⟩ | ⟨_, heq⟩
    · have hiy : i < yb.length := hlen ▸ hi
      refine ⟨yb.get ⟨i, hiy⟩, ?_, List.get_mem yb i hiy⟩
      show pickYearGo pb yb budget pb.length = some (yb.get ⟨i, hiy⟩)
      rw [heq, List.getElem?_eq_getElem hiy]
      rfl
    · have h0 : 0 < yb.length := List.length_pos.2 hne
      refine ⟨yb.get ⟨0, h0⟩, ?_, List.get_mem yb 0 h0⟩
      show pickYearGo pb yb budget pb.length = some (yb.get ⟨0, h0⟩)
      rw [heq, List.getElem?_eq_getElem h0]
      rfl

theorem pickYearForBudget_picks_highest_affordable_band_witness :
    camry.yearsByBand.length = camry.priceBands.length
      ∧ ∃ y, pickYearForBudget camry.priceBands camry.yearsByBand 20000 = some y
          ∧ y ∈ camry.yearsByBand :=
  ⟨by decide,
    (pickYearForBudget_picks_highest_affordable_band camry.priceBands camry.yearsByBand
      20000 (by decide)).2 (by decide)⟩

/-- C3: on a non-empty ascending band list, `affordabilityScore` is 0
exactly when the budget lies between the least and the greatest band, and
otherwise is the distance to the violated extreme: (min − budget) below,
(budget − max) above. -/
theorem affordabilityScore_zero_iff_within_bands
    (pb : List ℚ) (budget : ℚ) (hne : pb ≠ []) (hsort : pb.Sorted (· ≤ ·)) :
    (affordabilityScore pb budget = 0
      ↔ (∃ lo ∈ pb, lo ≤ budget) ∧ (∃ hi ∈ pb, budget ≤ hi))
    ∧ ((∀ x ∈ pb, budget < x) →
        ∃ lo ∈ pb, (∀ x ∈ pb, lo ≤ x) ∧ affordabilityScore pb budget = lo - budget)
    ∧ ((∀ x ∈ pb, x < budget) →
        ∃ hi ∈ pb, (∀ x ∈ pb, x ≤ hi) ∧ affordabilityScore pb budget = budget - hi) := by
  have hm : pb.headD 0 ∈ pb := headD_mem_of_ne_nil hne
  have hM : pb.getLastD 0 ∈ pb := getLastD_mem_of_ne_nil hne
  have hmlo : ∀ x ∈ pb, pb.headD 0 ≤ x := sorted_headD_le hsort
  have hMhi : ∀ x ∈ pb, x ≤ pb.getLastD 0 := sorted_le_getLastD hsort
  have hS : affordabilityScore pb budget
      = if pb.headD 0 ≤ budget ∧ budget ≤ pb.getLastD 0 then 0
        else if budget < pb.headD 0 then pb.headD 0 - budget
        else budget - pb.getLastD 0 := rfl
  rw [hS]
  split_ifs with h1 h2
  · refine ⟨?_, ?_, ?_⟩
    · exact iff_of_true rfl ⟨⟨pb.headD 0, hm, h1.1⟩, ⟨pb.getLastD 0, hM, h1.2⟩⟩
    · intro h
      exact absurd h1.1 (not_le.2 (h _ hm))
    · intro h
      exact absurd h1.2 (not_le.2 (h _ hM))
  · refine ⟨?_, ?_, ?_⟩
    · constructor
      · intro h0
        exact absurd h0 (sub_ne_zero_of_ne (ne_of_gt h2))
      · rintro ⟨⟨lo, hlo, hlob⟩, -⟩
        exact absurd (lt_of_lt_of_le h2 (hmlo lo hlo)) (not_lt.2 hlob)
    · intro _
      exact ⟨pb.headD 0, hm, hmlo, rfl⟩
    · intro h
      have hmM : pb.headD 0 ≤ pb.getLastD 0 := hMhi _ hm
      exact absurd (h _ hM) (not_lt.2 (le_of_lt (lt_of_lt_of_le h2 hmM)))
  · have hmb : pb.headD 0 ≤ budget := not_lt.1 h2
    have hMb : pb.getLastD 0 < budget := by
      by_contra hcon
      exact h1 ⟨hmb, not_lt.1 hcon⟩
    refine ⟨?_, ?_, ?_⟩
    · constructor
      · intro h0
        have : budget - pb.getLastD 0 ≠ 0 := sub_ne_zero_of_ne (ne_of_gt hMb)
        exact absurd h0 this
      · rintro ⟨-, ⟨hi, hhi, hbhi⟩⟩
        exact absurd (lt_of_lt_of_le hMb (le_trans hbhi (hMhi hi hhi))) (lt_irrefl _)
    · intro h
      exact absurd (h _ hm) (not_lt.2 hmb)
    · intro _
      exact ⟨pb.getLastD 0, hM, hMhi, rfl⟩

theorem affordabilityScore_zero_iff_within_bands_witness :
    camry.priceBands ≠ [] ∧ camry.priceBands.Sorted (· ≤ ·)
      ∧ ∃ lo ∈ camry.priceBands, (∀ x ∈ camry.priceBands, lo ≤ x)
          ∧ affordabilityScore camry.priceBands 10000 = lo - 10000 :=
  ⟨by decide, by decide,
    (affordabilityScore_zero_iff_within_bands camry.priceBands 10000
      (by decide) (by decide)).2.1 (by decide)⟩

/-- C4: for every input, the result list of `search` — and each of the two
passes it is built from — is sorted non-decreasingly by score and has
length at most 5. -/
theorem search_results_sorted_and_at_most_five
    (seats budget : Option ℚ) (type : Option String) (ws wb : ℚ) (wt : String) :
    ((search seats budget type).1.Sorted scoreLE ∧ (search seats budget type).1.length ≤ 5)
    ∧ ((primaryPass ws wb wt).Sorted scoreLE ∧ (primaryPass ws wb wt).length ≤ 5)
    ∧ ((relaxedPass ws wb).Sorted scoreLE ∧ (relaxedPass ws wb).length ≤ 5) := by
  refine ⟨?_, sorted_take_five _, sorted_take_five _⟩
  by_cases h : primaryPass (coerceSeats seats) (coerceBudget budget) (coerceType type) = []
  · rw [search_eq_relaxed seats budget type h]
    exact sorted_take_five _
  · rw [search_eq_primary seats budget type h]
    exact sorted_take_five _

/-- C7: `search` is total (a function in the embedding); absent and zero
seats/budget coerce to the defaults 4 and 20000, an absent type to the
empty string; in particular the all-zero request behaves exactly like the
all-default request, and every request yields at most 5 results. -/
theorem search_total_with_defaults :
    coerceSeats none = 4 ∧ coerceSeats (some 0) = 4
    ∧ coerceBudget none = 20000 ∧ coerceBudget (some 0) = 20000
    ∧ coerceType none = ""
    ∧ search (some 0) (some 0) (some "") = search (some 4) (some 20000) (some "")
    ∧ ∀ (seats budget : Option ℚ) (type : Option String),
        (search seats budget type).1.length ≤ 5 := by
  refine ⟨rfl, by simp [coerceSeats], rfl, by simp [coerceBudget],
    (toLower_data "").trans (by decide), ?_, ?_⟩
  · have h1 : coerceSeats (some 0) = coerceSeats (some 4) := by simp [coerceSeats]
    have h2 : coerceBudget (some 0) = coerceBudget (some 20000) := by simp [coerceBudget]
    unfold search
    rw [h1, h2]
  · intro s b t
    by_cases h : primaryPass (coerceSeats s) (coerceBudget b) (coerceType t) = []
    · rw [search_eq_relaxed s b t h]
      exact (sorted_take_five _).2
    · rw [search_eq_primary s b t h]
      exact (sorted_take_five _).2

/-- C5: when the primary pass is non-empty, `search` returns it with
`relaxed = false`; when it is empty, `search` reruns the pass with only
the seat filter, every score carrying the fixed 10000 penalty on top of
the non-relaxed score, sorted, top 5, with `relaxed = true`; when that is
also empty the response is the empty list with `relaxed = true`. -/
theorem search_falls_back_to_relaxed
    (seats budget : Option ℚ) (type : Option String) :
    (primaryPass (coerceSeats seats) (coerceBudget budget) (coerceType type) ≠ [] →
      search seats budget type
        = (primaryPass (coerceSeats seats) (coerceBudget budget) (coerceType type), false))
    ∧ (primaryPass (coerceSeats seats) (coerceBudget budget) (coerceType type) = [] →
      search seats budget type
        = ((((CARS.filter fun c => decide (coerceSeats seats ≤ c.minSeats)).map
            fun c => { toResult c (coerceSeats seats) (coerceBudget budget) with
                score := (toResult c (coerceSeats seats) (coerceBudget budget)).score
                  + 10000 }).insertionSort scoreLE).take 5, true))
    ∧ (primaryPass (coerceSeats seats) (coerceBudget budget) (coerceType type) = [] →
        relaxedPass (coerceSeats seats) (coerceBudget budget) = [] →
      search seats budget type = ([], true)) := by
  refine ⟨search_eq_primary seats budget type, ?_, ?_⟩
  · intro h
    rw [search_eq_relaxed seats budget type h]
    unfold relaxedPass
    simp only [toResultRelaxed_eq]
  · intro h h2
    rw [search_eq_relaxed seats budget type h, h2]

theorem search_falls_back_to_relaxed_witness :
    primaryPass (coerceSeats (some 4)) (coerceBudget (some 20000))
        (coerceType (some "hovercar")) = []
    ∧ search (some 4) (some 20000) (some "hovercar")
        = ((((CARS.filter fun c => decide (coerceSeats (some 4) ≤ c.minSeats)).map
            fun c => { toResult c (coerceSeats (some 4)) (coerceBudget (some 20000)) with
                score := (toResult c (coerceSeats (some 4)) (coerceBudget (some 20000))).score
                  + 10000 }).insertionSort scoreLE).take 5, true) := by
  have hct : coerceType (some "hovercar") = "hovercar" := by
    rw [coerceType_some]
    decide
  have hall : ∀ c ∈ CARS, ¬ (typeFilter c "hovercar" = true) := by decide
  have hempty : primaryPass (coerceSeats (some 4)) (coerceBudget (some 20000))
      (coerceType (some "hovercar")) = [] := by
    rw [primaryPass_eq_nil_iff, List.filter_eq_nil_iff, hct]
    intro c hc
    exact hall c (List.mem_filter.1 hc).1
  exact ⟨hempty,
    (search_falls_back_to_relaxed (some 4) (some 20000) (some "hovercar")).2.1 hempty⟩

/-- C6 (counterexample): the empty type string matches zero catalog
entries, yet `search` with it returns `relaxed = false` — so the claim
quantifying over every type string matching zero entries fails; it needs
the type to be non-empty. -/
theorem empty_type_matches_zero_entries_but_not_relaxed :
    (∀ c ∈ CARS, ("" : String) ∉ c.types)
    ∧ coerceType (some "") = ""
    ∧ (search (some 4) (some 20000) (some "")).2 = false := by
  have hct : coerceType (some "") = "" := by
    rw [coerceType_some]
    decide
  refine ⟨by decide, hct, ?_⟩
  have hne : primaryPass (coerceSeats (some 4)) (coerceBudget (some 20000))
      (coerceType (some "")) ≠ [] := by
    intro hnil
    rw [primaryPass_eq_nil_iff, List.filter_eq_nil_iff, hct] at hnil
    refine hnil camry ?_ ?_
    · rw [List.mem_filter]
      have h4 : coerceSeats (some 4) = 4 := by simp [coerceSeats]
      rw [h4]
      exact ⟨by decide, by decide⟩
    · decide
  rw [search_eq_primary (some 4) (some 20000) (some "") hne]

/-- C6 (amended): for every seats and budget and every NON-EMPTY coerced
type matching zero catalog entries, `search` sets `relaxed = true` and
every returned record scores exactly 10000 more than the same record
would score in a non-relaxed pass with the same seats and budget. -/
theorem unmatched_nonempty_type_forces_relaxed_penalty
    (seats budget : Option ℚ) (t : String)
    (hne : coerceType (some t) ≠ "")
    (hmatch : ∀ c ∈ CARS, coerceType (some t) ∉ c.types) :
    (search seats budget (some t)).2 = true
    ∧ ∀ r ∈ (search seats budget (some t)).1,
        ∃ c ∈ CARS, r.model = c.model
          ∧ r.score = (toResult c (coerceSeats seats) (coerceBudget budget)).score + 10000 := by
  have hempty : primaryPass (coerceSeats seats) (coerceBudget budget)
      (coerceType (some t)) = [] := by
    rw [primaryPass_eq_nil_iff, List.filter_eq_nil_iff]
    intro c hc htf
    have hcC : c ∈ CARS := (List.mem_filter.1 hc).1
    have htf2 : ((coerceType (some t)).isEmpty
        || c.types.contains (coerceType (some t))) = true := htf
    rw [Bool.or_eq_true] at htf2
    rcases htf2 with h | h
    · exact hne ((String.isEmpty_iff _).1 h)
    · exact hmatch c hcC (List.elem_iff.1 h)
  constructor
  · rw [search_eq_relaxed seats budget (some t) hempty]
  · intro r hr
    rw [search_eq_relaxed seats budget (some t) hempty] at hr
    obtain ⟨c, hcC, _, rfl⟩ := mem_relaxedPass hr
    exact ⟨c, hcC, rfl, toResultRelaxed_score c _ _⟩

theorem unmatched_nonempty_type_forces_relaxed_penalty_witness :
    coerceType (some "hovercar") ≠ ""
    ∧ (∀ c ∈ CARS, coerceType (some "hovercar") ∉ c.types)
    ∧ (search none none (some "hovercar")).2 = true
    ∧ ∀ r ∈ (search none none (some "hovercar")).1,
        ∃ c ∈ CARS, r.model = c.model
          ∧ r.score = (toResult c (coerceSeats none) (coerceBudget none)).score + 10000 := by
  have h1 : coerceType (some "hovercar") = "hovercar" := by
    rw [coerceType_some]
    decide
  have h2 : coerceType (some "hovercar") ≠ "" := by
    rw [h1]
    decide
  have h3 : ∀ c ∈ CARS, coerceType (some "hovercar") ∉ c.types := by
    rw [h1]
    decide
  obtain ⟨ha, hb⟩ := unmatched_nonempty_type_forces_relaxed_penalty none none "hovercar" h2 h3
  exact ⟨h2, h3, ha, hb⟩

/-- C10: with an integer seats request, every record surviving either
pass has minSeats ≥ seats, so the seat-overprovision penalty term is 0
and the returned score is the affordability distance alone (primary
pass, relaxed = false) or the affordability distance plus exactly 10000
(relaxed pass, relaxed = true). -/
theorem surviving_records_have_zero_seat_penalty
    (n : ℤ) (hn : n ≠ 0) (budget : Option ℚ) (type : Option String) :
    ∀ r ∈ (search (some (n : ℚ)) budget type).1,
      ∃ c ∈ CARS, r.model = c.model ∧ r.seats = c.minSeats ∧ (n : ℚ) ≤ c.minSeats
        ∧ max 0 ((n : ℚ) - c.minSeats) * 5000 = 0
        ∧ ((search (some (n : ℚ)) budget type).2 = false →
            r.score = affordabilityScore c.priceBands (coerceBudget budget))
        ∧ ((search (some (n : ℚ)) budget type).2 = true →
            r.score = affordabilityScore c.priceBands (coerceBudget budget) + 10000) := by
  have hws : coerceSeats (some (n : ℚ)) = (n : ℚ) := coerceSeats_intCast n hn
  intro r hr
  by_cases h : primaryPass (coerceSeats (some (n : ℚ))) (coerceBudget budget)
      (coerceType type) = []
  · rw [search_eq_relaxed _ _ _ h] at hr ⊢
    obtain ⟨c, hcC, hle, rfl⟩ := mem_relaxedPass hr
    rw [hws] at hle
    have hmax : max 0 ((n : ℚ) - c.minSeats) * 5000 = 0 := by
      rw [max_eq_left (sub_nonpos.2 hle), zero_mul]
    refine ⟨c, hcC, rfl, rfl, hle, hmax, ?_, ?_⟩
    · intro hfalse
      simp at hfalse
    · intro _
      rw [toResultRelaxed_score, toResult_score, hws, hmax, add_zero]
  · rw [search_eq_primary _ _ _ h] at hr ⊢
    obtain ⟨c, hcC, hsf, _, rfl⟩ := mem_primaryPass hr
    rw [hws] at hsf
    have hle : (n : ℚ) ≤ c.minSeats := (seatFilter3_eq_ge_int hcC n).1 hsf
    have hmax : max 0 ((n : ℚ) - c.minSeats) * 5000 = 0 := by
      rw [max_eq_left (sub_nonpos.2 hle), zero_mul]
    refine ⟨c, hcC, rfl, rfl, hle, hmax, ?_, ?_⟩
    · intro _
      rw [toResult_score, hws, hmax, add_zero]
    · intro htrue
      simp at htrue

theorem surviving_records_have_zero_seat_penalty_witness :
    ((5 : ℤ) ≠ 0)
    ∧ ∀ r ∈ (search (some ((5 : ℤ) : ℚ)) (some 30000) (some "luxury")).1,
      ∃ c ∈ CARS, r.model = c.model ∧ r.seats = c.minSeats ∧ ((5 : ℤ) : ℚ) ≤ c.minSeats
        ∧ max 0 (((5 : ℤ) : ℚ) - c.minSeats) * 5000 = 0
        ∧ ((search (some ((5 : ℤ) : ℚ)) (some 30000) (some "luxury")).2 = false →
            r.score = affordabilityScore c.priceBands (coerceBudget (some 30000)))
        ∧ ((search (some ((5 : ℤ) : ℚ)) (some 30000) (some "luxury")).2 = true →
            r.score = affordabilityScore c.priceBands (coerceBudget (some 30000)) + 10000) :=
  ⟨by decide,
    surviving_records_have_zero_seat_penalty 5 (by decide) (some 30000) (some "luxury")⟩

theorem rat_beq_eq (a b : ℚ) : (a == b) = decide (a = b) := rfl

theorem luxury_seat_filter_eval : CARS.filter (fun c => seatFilter3 c 5)
    = [camry, accord, telluride, odyssey, sClass, bmw7, lexusLS, escalade,
       modelS, model3, rav4, bmwM3] := by
  norm_num [CARS, camry, accord, telluride, odyssey, sClass, bmw7, lexusLS, escalade,
    modelS, model3, rav4, miata, porsche911, corvette, bmwM3, mustang, seatFilter3,
    List.filter, rat_beq_eq]

theorem luxury_type_filter_eval :
    [camry, accord, telluride, odyssey, sClass, bmw7, lexusLS, escalade,
     modelS, model3, rav4, bmwM3].filter (fun c => typeFilter c "luxury")
    = [sClass, bmw7, lexusLS, escalade, modelS] := by decide

/-- C8: on the fixed catalog, `search` with seats 5, budget 30000, type
"luxury" returns both the Mercedes-Benz S-Class and the Tesla Model S,
each carrying the tag "luxury" in its `typeMatches`. -/
theorem search_luxury_includes_sClass_and_modelS :
    (∃ a ∈ (search (some 5) (some 30000) (some "luxury")).1,
        a.model = "Mercedes-Benz S-Class" ∧ "luxury" ∈ a.typeMatches)
    ∧ (∃ a ∈ (search (some 5) (some 30000) (some "luxury")).1,
        a.model = "Tesla Model S" ∧ "luxury" ∈ a.typeMatches) := by
  have hs : coerceSeats (some 5) = 5 := by simp [coerceSeats]
  have hb : coerceBudget (some 30000) = 30000 := by simp [coerceBudget]
  have ht : coerceType (some "luxury") = "luxury" := by
    rw [coerceType_some]
    decide
  have hpp : primaryPass (coerceSeats (some 5)) (coerceBudget (some 30000))
        (coerceType (some "luxury"))
      = (([sClass, bmw7, lexusLS, escalade, modelS].map
          fun c => toResult c 5 30000).insertionSort scoreLE).take 5 := by
    rw [hs, hb, ht]
    unfold primaryPass
    rw [luxury_seat_filter_eval, luxury_type_filter_eval]
  have hlen : (([sClass, bmw7, lexusLS, escalade, modelS].map
      fun c => toResult c 5 30000).insertionSort scoreLE).length ≤ 5 := by
    rw [(List.perm_insertionSort scoreLE _).length_eq]
    simp
  have hne : primaryPass (coerceSeats (some 5)) (coerceBudget (some 30000))
      (coerceType (some "luxury")) ≠ [] := by
    rw [hpp]
    intro h
    rw [List.take_eq_nil_iff, insertionSort_eq_nil_iff] at h
    simp at h
  rw [search_eq_primary _ _ _ hne, hpp, List.take_of_length_le hlen]
  constructor
  · exact ⟨toResult sClass 5 30000,
      (List.mem_insertionSort scoreLE).2 (List.mem_map_of_mem _ (by simp)), rfl, by decide⟩
  · exact ⟨toResult modelS 5 30000,
      (List.mem_insertionSort scoreLE).2 (List.mem_map_of_mem _ (by simp)), rfl, by decide⟩

end CarMatch
